import Mathlib

/-
Shallow embedding of the getaways-api backend (Express + Mongoose, TypeScript)
for checking the natural-language specification against the code.

Conventions:
  - Mongo document ids are `Nat`; Date values are milliseconds since epoch (`Nat`);
    JWT issued-at timestamps are seconds (`ℚ`, since the code divides by 1000).
  - JS falsiness of a possibly-missing string is `truthyOptStr`.
  - Cryptographic primitives (bcrypt, sha256, jwt sign/verify) are parameters of
    the definitions that call them; the code treats them as black boxes.
  - Mongoose query middleware declared with `pre(/^find/)` applies to the whole
    find family, including `findById`, `findOne`, `findOneAndUpdate` and
    `findOneAndDelete`, so those filters are part of every modelled lookup.
-/

namespace Getaways

/-- JS truthiness of a possibly undefined string: undefined and the empty string
are falsy, every other string is truthy. -/
def truthyOptStr : Option String → Bool
  | some s => s != ""
  | none => false

/-- Replace the first element satisfying `p` by its image under `f`
(a Mongo findOneAndUpdate touches one document). -/
def updateFirst (p : α → Bool) (f : α → α) : List α → List α
  | [] => []
  | x :: xs => if p x then f x :: xs else x :: updateFirst p f xs

/-- Remove the first element satisfying `p` (a Mongo findOneAndDelete removes
one document). -/
def removeFirst (p : α → Bool) : List α → List α
  | [] => []
  | x :: xs => if p x then xs else x :: removeFirst p xs

/-! User model (src/models/userModel.ts). -/

/-- User document, the fields of `userSchema`. Optional fields model paths that
may be unset on a document. `active` defaults to true in the schema. -/
structure UserDoc where
  id : Nat
  name : String
  email : String
  photo : String
  role : String
  password : Option String
  passwordConfirm : Option String
  passwordChangedAt : Option Nat
  passwordResetToken : Option String
  passwordResetExpires : Option Nat
  active : Bool
deriving Repr, DecidableEq

/-- Filter added by `userSchema.pre(/^find/)`: `this.find({ active: { $ne: false } })`. -/
def activeNeFalse (u : UserDoc) : Bool := u.active != false

/-- User.findOne with the pre-find hook merged in: first document matching both
the caller s filter and `active: { $ne: false }`. -/
def userFindOne (db : List UserDoc) (p : UserDoc → Bool) : Option UserDoc :=
  db.find? (fun u => p u && activeNeFalse u)

/-- User.findById (a findOne by id, so the active filter applies). -/
def userFindById (db : List UserDoc) (uid : Nat) : Option UserDoc :=
  userFindOne db (fun u => u.id == uid)

/-- User.find with the pre-find hook merged in. -/
def userFindAll (db : List UserDoc) (p : UserDoc → Bool) : List UserDoc :=
  db.filter (fun u => p u && activeNeFalse u)

/-- userSchema.methods.changedPasswordAfter: true when `passwordChangedAt` is set
and the JWT timestamp (seconds) is strictly before `passwordChangedAt.getTime() / 1000`. -/
def changedPasswordAfter (u : UserDoc) (jwtTimestamp : ℚ) : Bool :=
  match u.passwordChangedAt with
  | some changedMs => decide (jwtTimestamp < (changedMs : ℚ) / 1000)
  | none => false

/-- First pre-save hook of userSchema: when the password path was modified, the
password is replaced by its bcrypt hash with cost factor 12 and passwordConfirm
is unset; otherwise the document is returned untouched. The bcrypt hash is a
parameter. The source asserts the password is present (`this.password!`). -/
def preSaveHashPassword (hash : String → Nat → String)
    (modifiedPassword : Bool) (u : UserDoc) : UserDoc :=
  if !modifiedPassword then u
  else
    { u with
      password := u.password.map (fun pw => hash pw 12)
      passwordConfirm := none }

/-- Second pre-save hook of userSchema: on a password change of an existing
document, `passwordChangedAt` is set to now minus one second. -/
def preSaveChangedAt (modifiedPassword isNew : Bool) (nowMs : Nat) (u : UserDoc) : UserDoc :=
  if !modifiedPassword || isNew then u
  else { u with passwordChangedAt := some (nowMs - 1000) }

/-- Validation run by `save()` before the pre-save hooks: passwordConfirm is
required and its validator demands `el === this.password`. -/
def userSaveValid (u : UserDoc) : Bool :=
  match u.password, u.passwordConfirm with
  | some pw, some pc => pc == pw
  | _, _ => false

/-- Document save: validation, then both pre-save hooks in order. -/
def userSave (hash : String → Nat → String) (modifiedPassword isNew : Bool)
    (nowMs : Nat) (u : UserDoc) : Except String UserDoc :=
  if !userSaveValid u then .error "ValidationError"
  else .ok (preSaveChangedAt modifiedPassword isNew nowMs
      (preSaveHashPassword hash modifiedPassword u))

/-- userSchema.methods.createPasswordResetToken: given the fresh random token
(`crypto.randomBytes(32).toString(hex)` in the source, a parameter here), stores
its sha256 hex digest in passwordResetToken, sets passwordResetExpires to ten
minutes from now, and returns the un-hashed token. -/
def createPasswordResetToken (sha256hex : String → String)
    (resetToken : String) (nowMs : Nat) (u : UserDoc) : String × UserDoc :=
  (resetToken,
   { u with
     passwordResetToken := some (sha256hex resetToken)
     passwordResetExpires := some (nowMs + 10 * 60 * 1000) })

/-! Tour model (src/models/tourModel.ts). -/

/-- Tour document: the schema fields the claims touch. `secretTour` defaults to
false, `ratingsAverage` to 4.5 and `ratingsQuantity` to 0. -/
structure TourDoc where
  id : Nat
  name : String
  price : ℚ
  priceDiscount : Option ℚ
  ratingsAverage : ℚ
  ratingsQuantity : Nat
  secretTour : Bool
deriving Repr, DecidableEq

/-- Setter on the ratingsAverage path: `val => Math.round(val * 10) / 10`.
JS Math.round rounds half toward positive infinity, so it is `⌊x + 1/2⌋`.
Mongoose runs path setters on update queries, so the value stored by
`findByIdAndUpdate` passes through this rounding. -/
def roundRating (v : ℚ) : ℚ := ((⌊v * 10 + 1/2⌋ : ℤ) : ℚ) / 10

/-- Custom validator on the priceDiscount path: `val < this.price`. -/
def priceDiscountValidator (val price : ℚ) : Bool := decide (val < price)

/-- Filter added by `tourSchema.pre(/^find/)`: `this.find({ secretTour: { $ne: true } })`. -/
def tourVisible (t : TourDoc) : Bool := t.secretTour != true

/-- Tour.findById with the secret-tour pre-find filter merged in. -/
def tourFindById (tours : List TourDoc) (tid : Nat) : Option TourDoc :=
  tours.find? (fun t => t.id == tid && tourVisible t)

/-! Review model (src/models/reviewModel.ts). -/

/-- Review document: text, a 1..5 rating, and references to its user and tour. -/
structure ReviewDoc where
  id : Nat
  reviewText : String
  rating : ℚ
  user : Nat
  tour : Nat
deriving Repr, DecidableEq

/-- Combined database of tours and reviews, for the aggregation trigger. -/
structure AppDB where
  tours : List TourDoc
  reviews : List ReviewDoc
deriving Repr, DecidableEq

/-- Update applied by calcAverageRatings through `Tour.findByIdAndUpdate`: the
first tour matching the id (and the secret-tour filter, which applies to
findOneAndUpdate as well) gets the new quantity and the rounded average. -/
def tourUpdateRatings (tours : List TourDoc) (tourId : Nat) (q : Nat) (avg : ℚ) :
    List TourDoc :=
  updateFirst (fun t => t.id == tourId && tourVisible t)
    (fun t => { t with ratingsQuantity := q, ratingsAverage := roundRating avg }) tours

/-- reviewSchema.statics.calcAverageRatings: aggregate the reviews whose tour
field equals the id (`$match`), count them (`$sum: 1`) and average their rating
(`$avg`); when the group is non-empty write (count, average) to the tour,
otherwise write (0, 4.5). -/
def calcAverageRatings (db : AppDB) (tourId : Nat) : AppDB :=
  if (db.reviews.filter (fun r => r.tour == tourId)).length > 0 then
    { db with
      tours := tourUpdateRatings db.tours tourId
        (db.reviews.filter (fun r => r.tour == tourId)).length
        (((db.reviews.filter (fun r => r.tour == tourId)).map (fun r => r.rating)).sum /
          (((db.reviews.filter (fun r => r.tour == tourId)).length : ℚ))) }
  else
    { db with tours := tourUpdateRatings db.tours tourId 0 (9/2) }

/-- Saving a review appends the document and then the `post('save')` hook calls
calcAverageRatings on the review s tour. -/
def reviewSave (db : AppDB) (r : ReviewDoc) : AppDB :=
  let db1 : AppDB := { db with reviews := db.reviews ++ [r] }
  calcAverageRatings db1 r.tour

/-- findOneAndDelete on a review: the `pre(/^findOneAnd/)` hook stores the
matched document, the delete runs, and the `post(/^findOneAnd/)` hook calls
calcAverageRatings on the stored document s tour. When no document matches,
the post hook dereferences null and throws. -/
def reviewFindOneAndDelete (db : AppDB) (rid : Nat) : Except String AppDB :=
  match db.reviews.find? (fun r => r.id == rid) with
  | none => .error "TypeError"
  | some rev =>
    let db1 : AppDB := { db with reviews := removeFirst (fun r => r.id == rid) db.reviews }
    .ok (calcAverageRatings db1 rev.tour)

/-- findOneAndUpdate on a review, same hook pair as the delete. -/
def reviewFindOneAndUpdate (db : AppDB) (rid : Nat) (upd : ReviewDoc → ReviewDoc) :
    Except String AppDB :=
  match db.reviews.find? (fun r => r.id == rid) with
  | none => .error "TypeError"
  | some rev =>
    let db1 : AppDB := { db with reviews := updateFirst (fun r => r.id == rid) upd db.reviews }
    .ok (calcAverageRatings db1 rev.tour)

/-- Unique compound index `{ tour: 1, user: 1 }`: an insert violates it when an
existing review has the same tour and user. -/
def reviewUniqueViolation (reviews : List ReviewDoc) (r : ReviewDoc) : Bool :=
  reviews.any (fun r2 => r2.tour == r.tour && r2.user == r.user)

/-- Review.create under the unique index: a duplicate (tour, user) pair is
rejected with a Mongo duplicate-key error, otherwise the save runs. -/
def reviewCreate (db : AppDB) (r : ReviewDoc) : Except String AppDB :=
  if reviewUniqueViolation db.reviews r then .error "E11000 duplicate key"
  else .ok (reviewSave db r)

/-! Auth controller (src/controllers/authController.ts). -/

/-- Payload of a verified JWT: the user id it was signed for and its issued-at
timestamp in seconds. -/
structure TokenPayload where
  id : Nat
  iat : ℚ
deriving Repr, DecidableEq

/-- Token extraction at the top of `protect`: when the authorization header is
present and starts with Bearer, the token is the second word of the header
(split on single spaces, possibly missing); otherwise, when the jwt cookie is
truthy, the token is the cookie. -/
def extractToken (authHeader cookieJwt : Option String) : Option String :=
  if (authHeader.map (fun h => h.startsWith "Bearer")).getD false then
    ((authHeader.getD "").splitOn " ").get? 1
  else if truthyOptStr cookieJwt then
    cookieJwt
  else
    none

/-- Result of the protect middleware: access granted with `req.user` set, an
AppError passed to `next`, or an exception thrown by `jwt.verify` and forwarded
by catchAsync (carrying the error name). -/
inductive ProtectOutcome where
  | granted (u : UserDoc)
  | appError (status : Nat) (message : String)
  | thrown (errName : String)
deriving Repr, DecidableEq

/-- The protect middleware: extract the token (missing or empty is falsy),
verify it against JWT_SECRET (`verify` parameter, failing with the error name
jsonwebtoken would throw), look the decoded id up with `User.findById` (which
carries the active filter), and reject tokens issued before the last password
change. -/
def protect (verify : String → Except String TokenPayload) (db : List UserDoc)
    (authHeader cookieJwt : Option String) : ProtectOutcome :=
  if !truthyOptStr (extractToken authHeader cookieJwt) then
    .appError 401 "You are not logged in. Please log in to get access."
  else
    match verify ((extractToken authHeader cookieJwt).getD "") with
    | .error errName => .thrown errName
    | .ok payload =>
      match userFindById db payload.id with
      | none => .appError 401 "The user no longer exists."
      | some currentUser =>
        if changedPasswordAfter currentUser payload.iat then
          .appError 401 "User recently changed password. Please log in again."
        else
          .granted currentUser

/-- Production mapping of thrown jwt errors in the global error handler
(src/controllers/errorController.ts): JsonWebTokenError and TokenExpiredError
become operational 401 errors. -/
def jwtThrownToResponse (errName : String) : Nat × String :=
  if errName == "JsonWebTokenError" then (401, "Invalid token. Please log in again.")
  else if errName == "TokenExpiredError" then (401, "Token expired. Please log in again.")
  else (500, "Something went wrong")

/-- Outcome of a middleware that either forwards the unchanged request or
passes an error to next. -/
inductive MiddlewareOutcome where
  | nextOk (req : UserDoc)
  | nextError (status : Nat) (message : String)
deriving Repr, DecidableEq

/-- restrictTo(...roles): reject with 403 when the requesting user s role is
not in the list, otherwise call next() leaving the request untouched. -/
def restrictTo (roles : List String) (reqUser : UserDoc) : MiddlewareOutcome :=
  if !roles.contains reqUser.role then
    .nextError 403 "You do not have permission to perform this action"
  else
    .nextOk reqUser

/-- Response of createSendToken: a JSON response carrying a fresh JWT for the
user, whose password field is blanked in the output. -/
structure AuthResponse where
  status : Nat
  token : String
  user : UserDoc
deriving Repr, DecidableEq

/-- createSendToken: sign a token for the user id (`sign` parameter), blank
the password in the response body and send the status code. -/
def createSendToken (sign : Nat → String) (u : UserDoc) (statusCode : Nat) : AuthResponse :=
  { status := statusCode, token := sign u.id, user := { u with password := none } }

/-- Outcome of resetPassword. -/
inductive ResetOutcome where
  | appError (status : Nat) (message : String)
  | validationFailed
  | success (db : List UserDoc) (resp : AuthResponse)
deriving Repr, DecidableEq

/-- The findOne filter of resetPassword, with the active pre-find hook merged
in by `userFindOne`: passwordResetToken equals the digest of the presented
token and passwordResetExpires is strictly greater than now. -/
def resetTokenMatches (hashedToken : String) (nowMs : Nat) (u : UserDoc) : Bool :=
  u.passwordResetToken == some hashedToken &&
    (match u.passwordResetExpires with
     | some e => decide (nowMs < e)
     | none => false)

/-- resetPassword: hash the presented token, find a user whose stored reset
token matches with an unexpired expiry (the lookup also filters on active), on
failure pass a 400 AppError to next; on success set the new password and its
confirmation, clear both reset fields, save (validation plus the hashing and
passwordChangedAt hooks) and log the user in with a 200 response. -/
def resetPassword (sha256hex : String → String) (sign : Nat → String)
    (hash : String → Nat → String) (db : List UserDoc)
    (presentedToken newPassword newPasswordConfirm : String) (nowMs : Nat) :
    ResetOutcome :=
  let hashedToken := sha256hex presentedToken
  match userFindOne db (resetTokenMatches hashedToken nowMs) with
  | none => .appError 400 "Token is invalid or has expired"
  | some user =>
    let user1 : UserDoc :=
      { user with
        password := some newPassword
        passwordConfirm := some newPasswordConfirm
        passwordResetToken := none
        passwordResetExpires := none }
    match userSave hash true false nowMs user1 with
    | .error _ => .validationFailed
    | .ok saved =>
      .success (updateFirst (fun u2 => u2.id == saved.id) (fun _ => saved) db)
        (createSendToken sign saved 200)

/-- Document state produced by the save inside a successful resetPassword: the
new password hashed by the first pre-save hook, passwordConfirm cleared by it,
passwordChangedAt stamped by the second hook, both reset fields cleared. -/
def resetSavedUser (hash : String → Nat → String) (newPassword : String)
    (nowMs : Nat) (v : UserDoc) : UserDoc :=
  { v with
    password := some (hash newPassword 12)
    passwordConfirm := none
    passwordChangedAt := some (nowMs - 1000)
    passwordResetToken := none
    passwordResetExpires := none }

/-! User controller (src/controllers/userController.ts). -/

/-- Request body as an association list of string fields (JS object keys are
unique, but no definition below depends on that). -/
abbrev Body := List (String × String)

/-- Lookup of a body field. -/
def bodyGet (b : Body) (k : String) : Option String :=
  (b.find? (fun kv => kv.1 == k)).map (fun kv => kv.2)

/-- filterObj: keep exactly the fields whose key is in the allowed list. -/
def filterObj (b : Body) (allowedFields : List String) : Body :=
  b.filter (fun kv => allowedFields.contains kv.1)

/-- Writing one body field into a user document, as a Mongo update would:
every schema path can be written, so nothing about the frame is built in. -/
def applyUserField (u : UserDoc) (k v : String) : UserDoc :=
  if k == "name" then { u with name := v }
  else if k == "email" then { u with email := v }
  else if k == "photo" then { u with photo := v }
  else if k == "role" then { u with role := v }
  else if k == "password" then { u with password := some v }
  else if k == "passwordConfirm" then { u with passwordConfirm := some v }
  else if k == "passwordResetToken" then { u with passwordResetToken := some v }
  else if k == "active" then { u with active := v != "false" }
  else u

/-- Writing a list of body fields in order. -/
def applyUserFields : UserDoc → Body → UserDoc
  | u, [] => u
  | u, kv :: rest => applyUserFields (applyUserField u kv.1 kv.2) rest

/-- The update document built by updateMe: the body filtered to name and email,
plus the photo filename when a file was uploaded. -/
def updateMeFiltered (body : Body) (file : Option String) : Body :=
  filterObj body ["name", "email"] ++
    (match file with
     | some filename => [("photo", filename)]
     | none => [])

/-- updateMe: a truthy password or passwordConfirm in the body is rejected with
a 400 AppError before anything is written; otherwise the filtered fields are
applied to the current user through `findByIdAndUpdate` (which carries the
active pre-find filter) and a 200 response is sent. -/
def updateMe (db : List UserDoc) (uid : Nat) (body : Body) (file : Option String) :
    Except (Nat × String) (List UserDoc) :=
  if truthyOptStr (bodyGet body "password") || truthyOptStr (bodyGet body "passwordConfirm") then
    .error (400, "This route is not for password updates. Please use /updatemypassword route.")
  else
    .ok (updateFirst (fun u => u.id == uid && activeNeFalse u)
      (fun u => applyUserFields u (updateMeFiltered body file)) db)

/-- deleteMe: `findByIdAndUpdate(req.user.id, { active: false })` followed by a
204 response with data null; the document itself is never removed. -/
def deleteMe (db : List UserDoc) (uid : Nat) : List UserDoc × Nat :=
  (updateFirst (fun u => u.id == uid && activeNeFalse u)
     (fun u => { u with active := false }) db,
   204)

/-! Tour controller (src/unnamed part 000, tourController). -/

/-- Result of a CRUD handler: an AppError passed to next, or a JSON response
with a status and optional data. -/
inductive HandlerResult (α : Type) where
  | err (status : Nat) (message : String)
  | ok (status : Nat) (data : Option α)
deriving Repr, DecidableEq

/-- getTour: `Tour.findById` (with the secret-tour filter), 404 when nothing is
found, otherwise 200 with the tour. -/
def getTour (tours : List TourDoc) (tid : Nat) : HandlerResult TourDoc :=
  match tourFindById tours tid with
  | none => .err 404 "No tour found with that ID"
  | some t => .ok 200 (some t)

/-- updateTour: `findByIdAndUpdate` with new true and runValidators true (the
body s effect on the document is the `upd` parameter), 404 when nothing
matches, otherwise 200 with the updated tour. -/
def updateTour (tours : List TourDoc) (tid : Nat) (upd : TourDoc → TourDoc) :
    List TourDoc × HandlerResult TourDoc :=
  match tourFindById tours tid with
  | none => (tours, .err 404 "No tour found with that ID")
  | some t =>
    (updateFirst (fun t2 => t2.id == tid && tourVisible t2) upd tours,
     .ok 200 (some (upd t)))

/-- deleteTour: `findByIdAndDelete`, 404 when nothing matches, otherwise 204
with data null. -/
def deleteTour (tours : List TourDoc) (tid : Nat) :
    List TourDoc × HandlerResult TourDoc :=
  match tourFindById tours tid with
  | none => (tours, .err 404 "No tour found with that ID")
  | some _ =>
    (removeFirst (fun t2 => t2.id == tid && tourVisible t2) tours,
     .ok 204 none)

/-- Everything getToursWithin emits for one request: the optional error passed
to next, and the JSON response it goes on to send regardless. -/
structure GeoResponse where
  nextError : Option (Nat × String)
  status : Nat
  results : Nat
  toursData : List TourDoc
  radius : ℚ
deriving Repr, DecidableEq

/-- Search radius of getToursWithin: distance over 3963.2 for miles, distance
over 6378.1 otherwise. -/
def getToursWithinRadius (distance : ℚ) (unit : String) : ℚ :=
  if unit == "mi" then distance / (39632 / 10) else distance / (63781 / 10)

/-- getToursWithin: split the latlng path parameter on commas; when either
coordinate is missing or empty, pass a 400 AppError to next WITHOUT returning,
then in every case run the `$geoWithin` query (the geometry predicate is the
`geoMatch` parameter, applied on top of the secret-tour filter) and send a 200
response. -/
def getToursWithin (geoMatch : String → String → ℚ → TourDoc → Bool)
    (tours : List TourDoc) (distance : ℚ) (latlng unit : String) : GeoResponse :=
  let parts := latlng.splitOn ","
  let lat := (parts.get? 0).getD ""
  let lng := (parts.get? 1).getD ""
  let radius := getToursWithinRadius distance unit
  let errCall :=
    if lat == "" || lng == "" then
      some (400, "Please provide latitude and longitude in the format lat, lng.")
    else
      none
  let found := (tours.filter tourVisible).filter (geoMatch lat lng radius)
  { nextError := errCall
    status := 200
    results := found.length
    toursData := found
    radius := radius }

/-! Concrete fixtures used to evaluate the definitions on explicit inputs. -/

/-- Stand-in for bcrypt.hash in concrete evaluations. -/
def demoHash (s : String) (n : Nat) : String := "h:" ++ s ++ ":" ++ toString n

/-- Stand-in for the sha256 hex digest in concrete evaluations. -/
def demoSha (s : String) : String := "sha:" ++ s

/-- Stand-in for jwt.sign in concrete evaluations. -/
def demoSign (i : Nat) : String := "jwt:" ++ toString i

/-- An ordinary active user document. -/
def demoUser : UserDoc :=
  ⟨1, "Alice A", "alice@example.com", "default.jpg", "user",
   some "pass1234", none, none, none, none, true⟩

/-- A deactivated user holding a stored, unexpired password-reset token. -/
def inactiveResetUser : UserDoc :=
  ⟨2, "Bob B", "bob@example.com", "default.jpg", "user",
   some "oldpass88", none, none, some (demoSha "tok123"), some 2000, false⟩

/-- An active user holding a stored, unexpired password-reset token. -/
def activeResetUser : UserDoc :=
  ⟨3, "Cara C", "cara@example.com", "default.jpg", "user",
   some "oldpass77", none, none, some (demoSha "tok456"), some 5000, true⟩

/-- An ordinary visible tour. -/
def demoTour : TourDoc := ⟨1, "The Forest Hiker", 397, none, 9/2, 0, false⟩

/-- A tour marked secret, same id as demoTour uses. -/
def demoSecretTour : TourDoc := ⟨1, "The Secret Hiker", 397, none, 9/2, 0, true⟩

/-- A database with one tour and three reviews of it rated 1, 1 and 2. -/
def demoDB : AppDB :=
  ⟨[demoTour], [⟨1, "bad", 1, 10, 1⟩, ⟨2, "bad", 1, 11, 1⟩, ⟨3, "soso", 2, 12, 1⟩]⟩

/-! Helper lemmas shared by the claim theorems. -/

/-- updateFirst keeps the list length. -/
theorem updateFirst_length (p : α → Bool) (f : α → α) :
    ∀ l : List α, (updateFirst p f l).length = l.length
  | [] => rfl
  | x :: xs => by
    by_cases hx : p x = true
    · simp [updateFirst, hx]
    · simp [updateFirst, hx, updateFirst_length p f xs]

/-- When some member of the list satisfies p, updateFirst contains the image of
a p-satisfying member. -/
theorem updateFirst_hits (p : α → Bool) (f : α → α) :
    ∀ l : List α, ∀ x ∈ l, p x = true →
      ∃ y ∈ l, p y = true ∧ f y ∈ updateFirst p f l
  | [], x, hx, _ => absurd hx (List.not_mem_nil x)
  | z :: zs, x, hx, hpx => by
    by_cases hz : p z = true
    · exact ⟨z, List.mem_cons_self z zs, hz, by simp [updateFirst, hz]⟩
    · rcases List.mem_cons.mp hx with h | h
      · subst h; exact absurd hpx hz
      · rcases updateFirst_hits p f zs x h hpx with ⟨y, hy, hpy, hfy⟩
        exact ⟨y, List.mem_cons_of_mem z hy, hpy, by simp [updateFirst, hz, hfy]⟩

/-- C3: on a save where the password path was modified, the pre-save hook
replaces the stored password by its bcrypt hash with cost factor 12 and unsets
passwordConfirm before the write; when the password was not modified the hook
leaves the document, in particular both fields, unchanged. -/
theorem preSave_password_hash_spec (hash : String → Nat → String) (u : UserDoc)
    (pw : String) (hpw : u.password = some pw) :
    preSaveHashPassword hash true u =
      { u with password := some (hash pw 12), passwordConfirm := none } ∧
    preSaveHashPassword hash false u = u := by
  constructor
  · simp [preSaveHashPassword, hpw]
  · simp [preSaveHashPassword]

/-- Witness for C3 at a concrete user and a concrete hash function. -/
theorem preSave_password_hash_witness :
    preSaveHashPassword demoHash true demoUser =
      { demoUser with password := some (demoHash "pass1234" 12), passwordConfirm := none } ∧
    preSaveHashPassword demoHash false demoUser = demoUser :=
  preSave_password_hash_spec demoHash demoUser "pass1234" rfl

/-- C5: the middleware produced by restrictTo rejects with a 403 error exactly
when the requesting user s role is not in the allowed list, and otherwise calls
next forwarding the request unchanged. -/
theorem restrictTo_spec (roles : List String) (reqUser : UserDoc) :
    (restrictTo roles reqUser =
        .nextError 403 "You do not have permission to perform this action"
      ↔ roles.contains reqUser.role = false) ∧
    (restrictTo roles reqUser = .nextOk reqUser ↔ roles.contains reqUser.role = true) := by
  unfold restrictTo
  cases h : roles.contains reqUser.role <;> simp

/-- C7 counterexample: the code does enforce data invariants of its own. The
priceDiscount validator is a cross-field constraint (it rejects a discount
equal to the price and accepts a smaller one), the ratingsAverage setter is a
value-normalization rule (it maps 4/3 to 13/10, not to itself), and the unique
compound index on (tour, user) rejects a second review by the same user on the
same tour. -/
theorem custom_invariants_counterexample :
    priceDiscountValidator 100 100 = false ∧
    priceDiscountValidator 50 100 = true ∧
    roundRating (4/3) = 13/10 ∧
    decide ((4/3 : ℚ) = 13/10) = false ∧
    reviewUniqueViolation [⟨1, "nice", 5, 7, 3⟩] ⟨2, "again", 4, 7, 3⟩ = true ∧
    reviewCreate ⟨[], [⟨1, "nice", 5, 7, 3⟩]⟩ ⟨2, "again", 4, 7, 3⟩ =
      .error "E11000 duplicate key" := by
  refine ⟨by decide, by decide, ?_, ?_, rfl, rfl⟩
  · unfold roundRating
    norm_num
  · rw [decide_eq_false_iff_not]
    norm_num

/-- C7 amended: the schema layer does enforce three custom invariants — the
priceDiscount validator holds exactly when the discount is strictly below the
price, the ratingsAverage setter normalizes every value to an integer number of
tenths, and the review unique index flags an insert exactly when an existing
review has the same tour and user; review creation fails with a duplicate-key
error exactly in that case. -/
theorem custom_invariants_spec (v p : ℚ) (db : AppDB) (r : ReviewDoc) (q : ℚ) :
    (priceDiscountValidator v p = true ↔ v < p) ∧
    (∃ z : ℤ, roundRating q = (z : ℚ) / 10) ∧
    (reviewUniqueViolation db.reviews r = true ↔
      ∃ r2 ∈ db.reviews, r2.tour = r.tour ∧ r2.user = r.user) ∧
    (reviewCreate db r = .error "E11000 duplicate key" ↔
      ∃ r2 ∈ db.reviews, r2.tour = r.tour ∧ r2.user = r.user) := by
  have hviol : reviewUniqueViolation db.reviews r = true ↔
      ∃ r2 ∈ db.reviews, r2.tour = r.tour ∧ r2.user = r.user := by
    simp [reviewUniqueViolation, List.any_eq_true]
  refine ⟨by simp [priceDiscountValidator], ⟨⌊q * 10 + 1/2⌋, rfl⟩, hviol, ?_⟩
  rw [← hviol]
  unfold reviewCreate
  cases h : reviewUniqueViolation db.reviews r <;> simp [h]

/-- Writing a name, email or photo field touches no other schema path. -/
theorem applyUserField_preserves (u : UserDoc) (k v : String)
    (hk : k = "name" ∨ k = "email" ∨ k = "photo") :
    (applyUserField u k v).id = u.id ∧
    (applyUserField u k v).role = u.role ∧
    (applyUserField u k v).password = u.password ∧
    (applyUserField u k v).passwordConfirm = u.passwordConfirm ∧
    (applyUserField u k v).passwordChangedAt = u.passwordChangedAt ∧
    (applyUserField u k v).passwordResetToken = u.passwordResetToken ∧
    (applyUserField u k v).passwordResetExpires = u.passwordResetExpires ∧
    (applyUserField u k v).active = u.active := by
  rcases hk with h | h | h <;> subst h <;> simp [applyUserField]

/-- Writing a list of name, email or photo fields touches no other schema path. -/
theorem applyUserFields_preserves (fields : Body) :
    ∀ u : UserDoc, (∀ kv ∈ fields, kv.1 = "name" ∨ kv.1 = "email" ∨ kv.1 = "photo") →
    (applyUserFields u fields).id = u.id ∧
    (applyUserFields u fields).role = u.role ∧
    (applyUserFields u fields).password = u.password ∧
    (applyUserFields u fields).passwordConfirm = u.passwordConfirm ∧
    (applyUserFields u fields).passwordChangedAt = u.passwordChangedAt ∧
    (applyUserFields u fields).passwordResetToken = u.passwordResetToken ∧
    (applyUserFields u fields).passwordResetExpires = u.passwordResetExpires ∧
    (applyUserFields u fields).active = u.active := by
  induction fields with
  | nil => exact fun u _ => ⟨rfl, rfl, rfl, rfl, rfl, rfl, rfl, rfl⟩
  | cons kv rest ih =>
    intro u h
    have hh := applyUserField_preserves u kv.1 kv.2 (h kv (List.mem_cons_self kv rest))
    have ht := ih (applyUserField u kv.1 kv.2)
      (fun kv2 hkv2 => h kv2 (List.mem_cons_of_mem kv hkv2))
    exact ⟨ht.1.trans hh.1, ht.2.1.trans hh.2.1, ht.2.2.1.trans hh.2.2.1,
      ht.2.2.2.1.trans hh.2.2.2.1, ht.2.2.2.2.1.trans hh.2.2.2.2.1,
      ht.2.2.2.2.2.1.trans hh.2.2.2.2.2.1, ht.2.2.2.2.2.2.1.trans hh.2.2.2.2.2.2.1,
      ht.2.2.2.2.2.2.2.trans hh.2.2.2.2.2.2.2⟩

/-- Writing a name or email field leaves the photo unchanged. -/
theorem applyUserFields_photo (fields : Body) :
    ∀ u : UserDoc, (∀ kv ∈ fields, kv.1 = "name" ∨ kv.1 = "email") →
    (applyUserFields u fields).photo = u.photo := by
  induction fields with
  | nil => exact fun _ _ => rfl
  | cons kv rest ih =>
    intro u h
    have hh : (applyUserField u kv.1 kv.2).photo = u.photo := by
      rcases h kv (List.mem_cons_self kv rest) with h1 | h1 <;> rw [h1] <;>
        simp [applyUserField]
    have ht := ih (applyUserField u kv.1 kv.2)
      (fun kv2 hkv2 => h kv2 (List.mem_cons_of_mem kv hkv2))
    exact ht.trans hh

/-- Keys surviving the updateMe filter are name, email, or the photo filename. -/
theorem updateMeFiltered_keys (body : Body) (file : Option String) :
    ∀ kv ∈ updateMeFiltered body file, kv.1 = "name" ∨ kv.1 = "email" ∨ kv.1 = "photo" := by
  intro kv hkv
  unfold updateMeFiltered at hkv
  rcases List.mem_append.mp hkv with h | h
  · have hc := (List.mem_filter.mp h).2
    simp only [List.contains_eq_any_beq, List.any_cons, List.any_nil, Bool.or_false,
      Bool.or_eq_true, beq_iff_eq] at hc
    exact Or.elim hc (fun h1 => Or.inl h1) (fun h1 => Or.inr (Or.inl h1))
  · cases file with
    | none => simp at h
    | some filename =>
      simp only [List.mem_singleton] at h
      subst h
      exact Or.inr (Or.inr rfl)

/-- Keys surviving the updateMe filter with no uploaded file are name or email. -/
theorem updateMeFiltered_keys_nofile (body : Body) :
    ∀ kv ∈ updateMeFiltered body none, kv.1 = "name" ∨ kv.1 = "email" := by
  intro kv hkv
  unfold updateMeFiltered at hkv
  simp only [List.append_nil] at hkv
  have hc := (List.mem_filter.mp hkv).2
  simp only [List.contains_eq_any_beq, List.any_cons, List.any_nil, Bool.or_false,
    Bool.or_eq_true, beq_iff_eq] at hc
  exact hc

/-- C8 amended: a truthy (non-empty) password or passwordConfirm in the body is
rejected with a 400 error before anything is written (a falsy value such as the
empty string is not rejected, but the field is dropped by filterObj anyway);
otherwise updateMe writes at most name, email and — only when a file was
uploaded — photo: every other stored field of every user is left unchanged. -/
theorem updateMe_spec (db : List UserDoc) (uid : Nat) (body : Body) (file : Option String) :
    ((truthyOptStr (bodyGet body "password") = true ∨
        truthyOptStr (bodyGet body "passwordConfirm") = true) →
      updateMe db uid body file =
        .error (400, "This route is not for password updates. Please use /updatemypassword route.")) ∧
    ((truthyOptStr (bodyGet body "password") = false ∧
        truthyOptStr (bodyGet body "passwordConfirm") = false) →
      updateMe db uid body file =
        .ok (updateFirst (fun u => u.id == uid && activeNeFalse u)
          (fun u => applyUserFields u (updateMeFiltered body file)) db)) ∧
    (∀ u : UserDoc,
      (applyUserFields u (updateMeFiltered body file)).id = u.id ∧
      (applyUserFields u (updateMeFiltered body file)).role = u.role ∧
      (applyUserFields u (updateMeFiltered body file)).password = u.password ∧
      (applyUserFields u (updateMeFiltered body file)).passwordConfirm = u.passwordConfirm ∧
      (applyUserFields u (updateMeFiltered body file)).passwordChangedAt = u.passwordChangedAt ∧
      (applyUserFields u (updateMeFiltered body file)).passwordResetToken = u.passwordResetToken ∧
      (applyUserFields u (updateMeFiltered body file)).passwordResetExpires = u.passwordResetExpires ∧
      (applyUserFields u (updateMeFiltered body file)).active = u.active ∧
      (file = none → (applyUserFields u (updateMeFiltered body file)).photo = u.photo)) := by
  refine ⟨?_, ?_, ?_⟩
  · intro h
    unfold updateMe
    rcases h with h | h <;> simp [h]
  · intro h
    unfold updateMe
    simp [h.1, h.2]
  · intro u
    have hp := applyUserFields_preserves (updateMeFiltered body file) u
      (updateMeFiltered_keys body file)
    refine ⟨hp.1, hp.2.1, hp.2.2.1, hp.2.2.2.1, hp.2.2.2.2.1, hp.2.2.2.2.2.1,
      hp.2.2.2.2.2.2.1, hp.2.2.2.2.2.2.2, ?_⟩
    intro hfile
    subst hfile
    exact applyUserFields_photo (updateMeFiltered body none) u
      (updateMeFiltered_keys_nofile body)

/-- C8 counterexample: a body carrying an empty-string password is falsy in JS,
so updateMe does NOT fail with 400 — it proceeds and updates the name — while
the claim requires a 400 error and no update whenever a password value is
present in the body. -/
theorem updateMe_counterexample :
    updateMe [demoUser] 1 [("password", ""), ("name", "Eve")] none =
      .ok [{ demoUser with name := "Eve" }] ∧
    ({ demoUser with name := "Eve" }).name = "Eve" ∧
    demoUser.name = "Alice A" ∧
    decide (("Eve" : String) = "Alice A") = false := by
  exact ⟨rfl, rfl, rfl, by decide⟩

/-- Witness for C8 at concrete inputs: a truthy password is rejected with 400,
and with no file the photo of a concrete user is untouched. -/
theorem updateMe_spec_witness :
    updateMe [demoUser] 1 [("password", "hunter22")] none =
      .error (400, "This route is not for password updates. Please use /updatemypassword route.") ∧
    (applyUserFields demoUser (updateMeFiltered [("name", "Eve")] none)).photo = demoUser.photo :=
  ⟨(updateMe_spec [demoUser] 1 [("password", "hunter22")] none).1 (Or.inl rfl),
   ((updateMe_spec [demoUser] 1 [("name", "Eve")] none).2.2 demoUser).2.2.2.2.2.2.2.2 rfl⟩

/-- C6 amended: the 404 behaviour of the tour CRUD handlers is governed by the
find-family lookup, which carries the secret-tour filter: when that lookup
finds nothing (no tour with the id, or only a secret one), getTour, updateTour
and deleteTour pass a 404 error with message No tour found with that ID to
next; when it finds a tour, getTour responds 200 with it, updateTour responds
200 with the updated tour, and deleteTour responds 204 with data null. -/
theorem tourCRUD_spec (tours : List TourDoc) (tid : Nat) (upd : TourDoc → TourDoc) :
    (tourFindById tours tid = none →
      getTour tours tid = .err 404 "No tour found with that ID" ∧
      updateTour tours tid upd = (tours, .err 404 "No tour found with that ID") ∧
      deleteTour tours tid = (tours, .err 404 "No tour found with that ID")) ∧
    (∀ t, tourFindById tours tid = some t →
      getTour tours tid = .ok 200 (some t) ∧
      (updateTour tours tid upd).2 = .ok 200 (some (upd t)) ∧
      (deleteTour tours tid).2 = .ok 204 none) := by
  constructor
  · intro h
    exact ⟨by simp [getTour, h], by simp [updateTour, h], by simp [deleteTour, h]⟩
  · intro t h
    exact ⟨by simp [getTour, h], by simp [updateTour, h], by simp [deleteTour, h]⟩

/-- C6 counterexample: a tour with the requested id exists but is secret, so
getTour passes the 404 error although the tour exists, contradicting the claim
that the 404 happens only when no tour with that id exists. -/
theorem tourCRUD_counterexample :
    demoSecretTour ∈ [demoSecretTour] ∧
    demoSecretTour.id = 1 ∧
    getTour [demoSecretTour] 1 = .err 404 "No tour found with that ID" ∧
    updateTour [demoSecretTour] 1 id =
      ([demoSecretTour], .err 404 "No tour found with that ID") ∧
    deleteTour [demoSecretTour] 1 =
      ([demoSecretTour], .err 404 "No tour found with that ID") :=
  ⟨List.mem_singleton.mpr rfl, rfl, rfl, rfl, rfl⟩

/-- Witness for C6 at a concrete visible tour: found and not-found cases. -/
theorem tourCRUD_spec_witness :
    getTour [demoTour] 1 = .ok 200 (some demoTour) ∧
    (deleteTour [demoTour] 1).2 = .ok 204 none ∧
    getTour [demoTour] 2 = .err 404 "No tour found with that ID" := by
  have hfound := (tourCRUD_spec [demoTour] 1 id).2 demoTour rfl
  have hmissing := (tourCRUD_spec [demoTour] 2 id).1 rfl
  exact ⟨hfound.1, hfound.2.2, hmissing.1⟩

/-- C10: getToursWithin passes a 400 error to next exactly when the latlng path
parameter does not split on a comma into two truthy coordinates, but it never
returns early: the 200 response with the geo-query results is produced in every
case (so a malformed latlng initiates both an error response and a 200
response); the search radius is distance over 3963.2 for unit mi and distance
over 6378.1 otherwise. -/
theorem getToursWithin_spec (geoMatch : String → String → ℚ → TourDoc → Bool)
    (tours : List TourDoc) (distance : ℚ) (latlng unit : String) :
    ((getToursWithin geoMatch tours distance latlng unit).nextError =
        some (400, "Please provide latitude and longitude in the format lat, lng.")
      ↔ (((latlng.splitOn ",").get? 0).getD "" = "" ∨
         ((latlng.splitOn ",").get? 1).getD "" = "")) ∧
    ((getToursWithin geoMatch tours distance latlng unit).nextError = none
      ↔ (((latlng.splitOn ",").get? 0).getD "" ≠ "" ∧
         ((latlng.splitOn ",").get? 1).getD "" ≠ "")) ∧
    (getToursWithin geoMatch tours distance latlng unit).status = 200 ∧
    (getToursWithin geoMatch tours distance latlng unit).radius =
      (if unit == "mi" then distance / (39632 / 10) else distance / (63781 / 10)) ∧
    (getToursWithin geoMatch tours distance latlng unit).toursData =
      (tours.filter tourVisible).filter
        (geoMatch (((latlng.splitOn ",").get? 0).getD "")
          (((latlng.splitOn ",").get? 1).getD "")
          (getToursWithinRadius distance unit)) ∧
    (getToursWithin geoMatch tours distance latlng unit).results =
      (getToursWithin geoMatch tours distance latlng unit).toursData.length := by
  unfold getToursWithin getToursWithinRadius
  simp only [List.get?_eq_getElem?]
  by_cases h0 : ((latlng.splitOn ",")[0]?).getD "" = "" <;>
    by_cases h1 : ((latlng.splitOn ",")[1]?).getD "" = "" <;>
      simp [h0, h1]

/-- C2: protect grants access (returning the authenticated user for req.user)
exactly when a truthy token was extracted (Bearer header first, jwt cookie as
fallback), the token verifies, the lookup of the decoded id finds a user, and
that user did not change the password after the token issued-at timestamp; a
missing token, a missing user and a stale token each produce the specific 401
error, and a verification failure is thrown and mapped to a 401 by the error
handler. -/
theorem protect_spec (verify : String → Except String TokenPayload)
    (db : List UserDoc) (authHeader cookieJwt : Option String) :
    (∀ u, protect verify db authHeader cookieJwt = .granted u ↔
      ∃ t, extractToken authHeader cookieJwt = some t ∧ t ≠ "" ∧
        ∃ payload, verify t = .ok payload ∧ userFindById db payload.id = some u ∧
          changedPasswordAfter u payload.iat = false) ∧
    (truthyOptStr (extractToken authHeader cookieJwt) = false →
      protect verify db authHeader cookieJwt =
        .appError 401 "You are not logged in. Please log in to get access.") ∧
    (∀ t payload, extractToken authHeader cookieJwt = some t → t ≠ "" →
      verify t = .ok payload → userFindById db payload.id = none →
      protect verify db authHeader cookieJwt =
        .appError 401 "The user no longer exists.") ∧
    (∀ t payload u, extractToken authHeader cookieJwt = some t → t ≠ "" →
      verify t = .ok payload → userFindById db payload.id = some u →
      changedPasswordAfter u payload.iat = true →
      protect verify db authHeader cookieJwt =
        .appError 401 "User recently changed password. Please log in again.") ∧
    (∀ t errName, extractToken authHeader cookieJwt = some t → t ≠ "" →
      verify t = .error errName →
      protect verify db authHeader cookieJwt = .thrown errName ∧
      ((errName = "JsonWebTokenError" ∨ errName = "TokenExpiredError") →
        (jwtThrownToResponse errName).1 = 401)) := by
  refine ⟨?_, ?_, ?_, ?_, ?_⟩
  · intro u
    constructor
    · intro h
      unfold protect at h
      rcases htok : extractToken authHeader cookieJwt with _ | t
      · rw [htok] at h
        simp [truthyOptStr] at h
      · rw [htok] at h
        by_cases hte : t = ""
        · subst hte
          simp [truthyOptStr] at h
        · simp only [truthyOptStr, Option.getD_some] at h
          have hbt : (t != "") = true := bne_iff_ne.mpr hte
          rw [hbt] at h
          simp only [Bool.not_true, Bool.false_eq_true, if_false] at h
          rcases hv : verify t with errName | payload
          · simp only [hv] at h
            exact ProtectOutcome.noConfusion h
          · simp only [hv] at h
            rcases hf : userFindById db payload.id with _ | u2
            · simp only [hf] at h
              exact ProtectOutcome.noConfusion h
            · simp only [hf] at h
              cases hc : changedPasswordAfter u2 payload.iat
              · simp only [hc, Bool.false_eq_true, if_false,
                  ProtectOutcome.granted.injEq] at h
                subst h
                exact ⟨t, rfl, hte, payload, hv, hf, hc⟩
              · simp [hc] at h
    · rintro ⟨t, htok, hte, payload, hv, hf, hc⟩
      unfold protect
      rw [htok]
      simp only [truthyOptStr, Option.getD_some]
      have hbt : (t != "") = true := bne_iff_ne.mpr hte
      rw [hbt]
      simp [hv, hf, hc]
  · intro h
    unfold protect
    rw [h]
    simp
  · intro t payload htok hte hv hf
    unfold protect
    rw [htok]
    have hbt : (t != "") = true := bne_iff_ne.mpr hte
    simp [truthyOptStr, hbt, hv, hf]
  · intro t payload u htok hte hv hf hc
    unfold protect
    rw [htok]
    have hbt : (t != "") = true := bne_iff_ne.mpr hte
    simp [truthyOptStr, hbt, hv, hf, hc]
  · intro t errName htok hte hv
    refine ⟨?_, ?_⟩
    · unfold protect
      rw [htok]
      have hbt : (t != "") = true := bne_iff_ne.mpr hte
      simp [truthyOptStr, hbt, hv]
    · rintro (h | h) <;> subst h <;> rfl

/-- Witness for C2 at concrete inputs: a cookie token is granted for an
existing fresh user, and a missing token is a 401. -/
theorem protect_spec_witness :
    protect (fun _ => Except.ok ⟨1, 5⟩) [demoUser] none (some "tok") =
      .granted demoUser ∧
    protect (fun _ => Except.ok ⟨1, 5⟩) [demoUser] none none =
      .appError 401 "You are not logged in. Please log in to get access." :=
  ⟨((protect_spec (fun _ => Except.ok ⟨1, 5⟩) [demoUser] none (some "tok")).1
      demoUser).mpr ⟨"tok", rfl, by decide, ⟨1, 5⟩, rfl, rfl, rfl⟩,
   (protect_spec (fun _ => Except.ok ⟨1, 5⟩) [demoUser] none none).2.1 rfl⟩

/-- Splitting a Bool conjunction that evaluated to true. -/
theorem bool_and_split {a b : Bool} (h : (a && b) = true) : a = true ∧ b = true :=
  Bool.and_eq_true a b ▸ h

/-- Every user returned by a find-family lookup passed through the active
filter, so it is a member of the collection and is active. -/
theorem userFindOne_mem_active (db : List UserDoc) (p : UserDoc → Bool) (w : UserDoc)
    (h : userFindOne db p = some w) : w ∈ db ∧ w.active = true := by
  unfold userFindOne at h
  refine ⟨List.mem_of_find?_eq_some h, ?_⟩
  have hp := List.find?_some h
  have := (bool_and_split hp).2
  simpa [activeNeFalse] using this

/-- Every user in the results of a find-family list query is active. -/
theorem userFindAll_active (db : List UserDoc) (p : UserDoc → Bool) :
    ∀ w ∈ userFindAll db p, w.active = true := by
  intro w hw
  unfold userFindAll at hw
  have := (List.mem_filter.mp hw).2
  simpa [activeNeFalse] using (bool_and_split this).2

/-- After the deleteMe update, every document carrying the targeted id is
inactive (ids are assumed unique, as Mongo object ids are). -/
theorem deactivateFirst_all (uid : Nat) :
    ∀ db : List UserDoc, (db.map (fun v => v.id)).Nodup →
      ∀ w ∈ updateFirst (fun v => v.id == uid && activeNeFalse v)
          (fun v => { v with active := false }) db,
        w.id = uid → w.active = false := by
  intro db
  induction db with
  | nil => intro _ w hw; exact absurd hw (List.not_mem_nil w)
  | cons x xs ih =>
    intro hnodup w hw hwid
    rw [List.map_cons, List.nodup_cons] at hnodup
    by_cases hx : (x.id == uid && activeNeFalse x) = true
    · rw [updateFirst, if_pos hx] at hw
      rcases List.mem_cons.mp hw with h | h
      · subst h; rfl
      · exfalso
        have hxid : x.id = uid := beq_iff_eq.mp (bool_and_split hx).1
        apply hnodup.1
        rw [hxid, ← hwid]
        exact List.mem_map_of_mem (fun v => v.id) h
    · rw [updateFirst, if_neg hx] at hw
      rcases List.mem_cons.mp hw with h | h
      · subst h
        cases hA : w.active
        · rfl
        · exfalso
          apply hx
          rw [Bool.and_eq_true]
          exact ⟨beq_iff_eq.mpr hwid, by simp [activeNeFalse, hA]⟩
      · exact ih hnodup.2 w h hwid

/-- The deleteMe update leaves behind a document with the targeted id, now
inactive, whenever one was present. -/
theorem deactivateFirst_exists (uid : Nat) :
    ∀ db : List UserDoc, ∀ u ∈ db, u.id = uid →
      ∃ w ∈ updateFirst (fun v => v.id == uid && activeNeFalse v)
          (fun v => { v with active := false }) db,
        w.id = uid ∧ w.active = false := by
  intro db
  induction db with
  | nil => intro u hu; exact absurd hu (List.not_mem_nil u)
  | cons x xs ih =>
    intro u hu hid
    by_cases hx : (x.id == uid && activeNeFalse x) = true
    · refine ⟨{ x with active := false }, ?_, ?_, rfl⟩
      · rw [updateFirst, if_pos hx]
        exact List.mem_cons_self _ _
      · exact beq_iff_eq.mp (bool_and_split hx).1
    · rcases List.mem_cons.mp hu with h | h
      · subst h
        have hA : u.active = false := by
          cases hA : u.active
          · rfl
          · exfalso
            apply hx
            rw [Bool.and_eq_true]
            exact ⟨beq_iff_eq.mpr hid, by simp [activeNeFalse, hA]⟩
        refine ⟨u, ?_, hid, hA⟩
        rw [updateFirst, if_neg hx]
        exact List.mem_cons_self _ _
      · rcases ih u h hid with ⟨w, hw, hwid, hwa⟩
        refine ⟨w, ?_, hwid, hwa⟩
        rw [updateFirst, if_neg hx]
        exact List.mem_cons_of_mem x hw

/-- C9: deleteMe never removes the document — it flips the active field of the
current user to false (through findByIdAndUpdate) and responds 204 — and since
every find-family query on the User model filters on active not-equal-false, a
deactivated user is excluded from every subsequent findOne (login included) and
find, while the list keeps its length. -/
theorem deleteMe_spec (db : List UserDoc) (uid : Nat)
    (hnodup : (db.map (fun v => v.id)).Nodup)
    (u : UserDoc) (hu : u ∈ db) (hid : u.id = uid) :
    (deleteMe db uid).2 = 204 ∧
    (deleteMe db uid).1.length = db.length ∧
    (∃ w ∈ (deleteMe db uid).1, w.id = uid ∧ w.active = false) ∧
    (∀ p w, userFindOne (deleteMe db uid).1 p = some w → w.id ≠ uid) ∧
    (∀ p, ∀ w ∈ userFindAll (deleteMe db uid).1 p, w.id ≠ uid) := by
  refine ⟨rfl, updateFirst_length _ _ db, deactivateFirst_exists uid db u hu hid, ?_, ?_⟩
  · intro p w hw hwid
    have h1 := userFindOne_mem_active _ p w hw
    have h2 := deactivateFirst_all uid db hnodup w h1.1 hwid
    rw [h1.2] at h2
    exact Bool.noConfusion h2
  · intro p w hw hwid
    have h1 : w.active = true := userFindAll_active _ p w hw
    have hmem : w ∈ (deleteMe db uid).1 := List.mem_of_mem_filter hw
    have h2 := deactivateFirst_all uid db hnodup w hmem hwid
    rw [h1] at h2
    exact Bool.noConfusion h2

/-- Witness for C9 at a concrete one-user database: 204, document kept, and the
deactivated user invisible to findById. -/
theorem deleteMe_spec_witness :
    (deleteMe [demoUser] 1).2 = 204 ∧
    (deleteMe [demoUser] 1).1.length = 1 ∧
    userFindById (deleteMe [demoUser] 1).1 1 = none := by
  have h := deleteMe_spec [demoUser] 1 (by simp) demoUser (List.mem_singleton.mpr rfl) rfl
  refine ⟨h.1, h.2.1, ?_⟩
  rcases hfind : userFindById (deleteMe [demoUser] 1).1 1 with _ | w
  · rfl
  · exfalso
    have hfind2 : ((deleteMe [demoUser] 1).1).find?
        (fun v => (v.id == 1) && activeNeFalse v) = some w := hfind
    have hp := List.find?_some hfind2
    simp only [Bool.and_eq_true, beq_iff_eq] at hp
    have hwid : w.id = 1 := hp.1
    exact h.2.2.2.1 (fun v => v.id == 1) w hfind hwid

/-- Boolean acceptance test of resetPassword spelled out as a proposition. -/
theorem resetTokenMatches_char (hashed : String) (nowMs : Nat) (v : UserDoc) :
    ((resetTokenMatches hashed nowMs v && activeNeFalse v) = true) ↔
      (v.passwordResetToken = some hashed ∧
        (∃ e, v.passwordResetExpires = some e ∧ nowMs < e) ∧ v.active = true) := by
  unfold resetTokenMatches activeNeFalse
  cases hre : v.passwordResetExpires <;> simp [hre, and_assoc]

/-- The save of a successful password reset always validates (password and
confirmation coincide) and produces exactly resetSavedUser. -/
theorem userSave_reset (hash : String → Nat → String) (newPassword : String)
    (nowMs : Nat) (v : UserDoc) :
    userSave hash true false nowMs
      { v with
        password := some newPassword
        passwordConfirm := some newPassword
        passwordResetToken := none
        passwordResetExpires := none } =
      .ok (resetSavedUser hash newPassword nowMs v) := by
  unfold userSave userSaveValid preSaveHashPassword preSaveChangedAt resetSavedUser
  simp

/-- C4 amended: createPasswordResetToken stores the digest of the fresh token
with a ten-minute expiry and returns the token un-hashed; resetPassword fails
with the 400 error exactly when no ACTIVE user has a matching stored digest
with an expiry strictly later than now (the lookup inherits the pre-find
filter on active, so a deactivated user is rejected even with a valid token);
on acceptance it stores the hashed new password, clears both reset fields and
logs the user in with a 200 response carrying a fresh token. -/
theorem passwordReset_spec (sha256hex : String → String) (sign : Nat → String)
    (hash : String → Nat → String) (db : List UserDoc)
    (resetToken presented newPassword : String) (nowMs nowMs2 : Nat) (u : UserDoc) :
    ((createPasswordResetToken sha256hex resetToken nowMs u).1 = resetToken) ∧
    ((createPasswordResetToken sha256hex resetToken nowMs u).2.passwordResetToken =
      some (sha256hex resetToken)) ∧
    ((createPasswordResetToken sha256hex resetToken nowMs u).2.passwordResetExpires =
      some (nowMs + 10 * 60 * 1000)) ∧
    (resetPassword sha256hex sign hash db presented newPassword newPassword nowMs2 =
        .appError 400 "Token is invalid or has expired" ↔
      ∀ v ∈ db, ¬(v.passwordResetToken = some (sha256hex presented) ∧
        (∃ e, v.passwordResetExpires = some e ∧ nowMs2 < e) ∧ v.active = true)) ∧
    (∀ v, userFindOne db (resetTokenMatches (sha256hex presented) nowMs2) = some v →
      resetPassword sha256hex sign hash db presented newPassword newPassword nowMs2 =
        .success
          (updateFirst
            (fun u2 => u2.id == (resetSavedUser hash newPassword nowMs2 v).id)
            (fun _ => resetSavedUser hash newPassword nowMs2 v) db)
          (createSendToken sign (resetSavedUser hash newPassword nowMs2 v) 200) ∧
      (resetSavedUser hash newPassword nowMs2 v).password = some (hash newPassword 12) ∧
      (resetSavedUser hash newPassword nowMs2 v).passwordConfirm = none ∧
      (resetSavedUser hash newPassword nowMs2 v).passwordResetToken = none ∧
      (resetSavedUser hash newPassword nowMs2 v).passwordResetExpires = none ∧
      (resetSavedUser hash newPassword nowMs2 v).id = v.id ∧
      (createSendToken sign (resetSavedUser hash newPassword nowMs2 v) 200).status = 200 ∧
      (createSendToken sign (resetSavedUser hash newPassword nowMs2 v) 200).token =
        sign v.id) := by
  have hsucc : ∀ v, userFindOne db (resetTokenMatches (sha256hex presented) nowMs2) = some v →
      resetPassword sha256hex sign hash db presented newPassword newPassword nowMs2 =
        .success
          (updateFirst
            (fun u2 => u2.id == (resetSavedUser hash newPassword nowMs2 v).id)
            (fun _ => resetSavedUser hash newPassword nowMs2 v) db)
          (createSendToken sign (resetSavedUser hash newPassword nowMs2 v) 200) := by
    intro v hfind
    unfold resetPassword
    simp only [hfind, userSave_reset hash newPassword nowMs2 v]
  refine ⟨rfl, rfl, rfl, ?_, ?_⟩
  · rcases hfind : userFindOne db (resetTokenMatches (sha256hex presented) nowMs2) with _ | v
    · have hnone := hfind
      unfold userFindOne at hnone
      rw [List.find?_eq_none] at hnone
      constructor
      · intro _ v hv hcontra
        exact hnone v hv ((resetTokenMatches_char (sha256hex presented) nowMs2 v).mpr hcontra)
      · intro _
        simp only [resetPassword, hfind]
    · have hmem : v ∈ db := (userFindOne_mem_active db _ v hfind).1
      have h2 := List.find?_some
        (show List.find?
          (fun w => resetTokenMatches (sha256hex presented) nowMs2 w && activeNeFalse w) db =
            some v from hfind)
      have h3 := (resetTokenMatches_char (sha256hex presented) nowMs2 v).mp h2
      constructor
      · intro hcontr
        rw [hsucc v hfind] at hcontr
        exact ResetOutcome.noConfusion hcontr
      · intro hall
        exact absurd h3 (hall v hmem)
  · intro v hfind
    exact ⟨hsucc v hfind, rfl, rfl, rfl, rfl, rfl, rfl, rfl⟩

/-- C4 counterexample: a deactivated user holds a stored reset-token digest
matching the presented token with an unexpired expiry, yet resetPassword
rejects with the 400 error, because the findOne inherits the active filter;
the claimed if-and-only-if over all users is therefore false. -/
theorem passwordReset_counterexample :
    inactiveResetUser ∈ [inactiveResetUser] ∧
    inactiveResetUser.passwordResetToken = some (demoSha "tok123") ∧
    inactiveResetUser.passwordResetExpires = some 2000 ∧
    (1000 : Nat) < 2000 ∧
    resetPassword demoSha demoSign demoHash [inactiveResetUser]
        "tok123" "newpass99" "newpass99" 1000 =
      .appError 400 "Token is invalid or has expired" :=
  ⟨List.mem_singleton.mpr rfl, rfl, rfl, by norm_num, rfl⟩

/-- Witness for C4 at concrete inputs: the returned token is the un-hashed one
and an empty collection rejects every presented token. -/
theorem passwordReset_spec_witness :
    (createPasswordResetToken demoSha "tok456" 0 demoUser).1 = "tok456" ∧
    resetPassword demoSha demoSign demoHash [] "tok456" "npw12345" "npw12345" 1000 =
      .appError 400 "Token is invalid or has expired" := by
  have h := passwordReset_spec demoSha demoSign demoHash [] "tok456" "tok456"
    "npw12345" 0 1000 demoUser
  exact ⟨h.1, h.2.2.2.1.mpr (fun v hv _ => absurd hv (List.not_mem_nil v))⟩

/-- Rounding to one decimal fixes the default value 4.5. -/
theorem roundRating_default : roundRating (9/2) = 9/2 := by
  unfold roundRating
  norm_num

/-- C1 amended: when the tour is found by the update query (it exists and is
not secret), calcAverageRatings sets its ratingsQuantity to the number of
reviews whose tour field equals the id, and its ratingsAverage to the
arithmetic mean of their ratings ROUNDED to one decimal by the ratingsAverage
setter (0 reviews give quantity 0 and average 4.5); reviews are untouched; the
recomputation runs after every review save and after every findOneAnd-style
update or delete through the registered hooks. -/
theorem calcAverageRatings_spec (db : AppDB) (tourId : Nat) (t : TourDoc)
    (hfound : tourFindById db.tours tourId = some t) :
    ((calcAverageRatings db tourId).reviews = db.reviews) ∧
    ((db.reviews.filter (fun r => r.tour == tourId)).length > 0 →
      ∃ t2 ∈ (calcAverageRatings db tourId).tours,
        t2.id = tourId ∧
        t2.ratingsQuantity = (db.reviews.filter (fun r => r.tour == tourId)).length ∧
        t2.ratingsAverage =
          roundRating
            (((db.reviews.filter (fun r => r.tour == tourId)).map (fun r => r.rating)).sum /
              (((db.reviews.filter (fun r => r.tour == tourId)).length : ℚ)))) ∧
    ((db.reviews.filter (fun r => r.tour == tourId)).length = 0 →
      ∃ t2 ∈ (calcAverageRatings db tourId).tours,
        t2.id = tourId ∧ t2.ratingsQuantity = 0 ∧ t2.ratingsAverage = 9/2) ∧
    (∀ r : ReviewDoc, reviewSave db r =
      calcAverageRatings { db with reviews := db.reviews ++ [r] } r.tour) ∧
    (∀ rid rev, db.reviews.find? (fun r => r.id == rid) = some rev →
      reviewFindOneAndDelete db rid =
        .ok (calcAverageRatings
          { db with reviews := removeFirst (fun r => r.id == rid) db.reviews } rev.tour)) ∧
    (∀ rid rev (upd : ReviewDoc → ReviewDoc),
      db.reviews.find? (fun r => r.id == rid) = some rev →
      reviewFindOneAndUpdate db rid upd =
        .ok (calcAverageRatings
          { db with reviews := updateFirst (fun r => r.id == rid) upd db.reviews }
          rev.tour)) := by
  have hmem : t ∈ db.tours := List.mem_of_find?_eq_some
    (show List.find? (fun v => v.id == tourId && tourVisible v) db.tours = some t from hfound)
  have hp := List.find?_some
    (show List.find? (fun v => v.id == tourId && tourVisible v) db.tours = some t from hfound)
  refine ⟨?_, ?_, ?_, fun _ => rfl, ?_, ?_⟩
  · unfold calcAverageRatings
    by_cases hn : (db.reviews.filter (fun r => r.tour == tourId)).length > 0
    · rw [if_pos hn]
    · rw [if_neg hn]
  · intro hn
    unfold calcAverageRatings
    rw [if_pos hn]
    unfold tourUpdateRatings
    rcases updateFirst_hits (fun v => v.id == tourId && tourVisible v)
      (fun v => { v with
        ratingsQuantity := (db.reviews.filter (fun r => r.tour == tourId)).length
        ratingsAverage := roundRating
          (((db.reviews.filter (fun r => r.tour == tourId)).map (fun r => r.rating)).sum /
            (((db.reviews.filter (fun r => r.tour == tourId)).length : ℚ))) })
      db.tours t hmem hp with ⟨y, _, hpy, hfy⟩
    exact ⟨_, hfy, beq_iff_eq.mp (bool_and_split hpy).1, rfl, rfl⟩
  · intro hn
    unfold calcAverageRatings
    rw [if_neg (by omega)]
    unfold tourUpdateRatings
    rcases updateFirst_hits (fun v => v.id == tourId && tourVisible v)
      (fun v => { v with ratingsQuantity := 0, ratingsAverage := roundRating (9/2) })
      db.tours t hmem hp with ⟨y, _, hpy, hfy⟩
    exact ⟨_, hfy, beq_iff_eq.mp (bool_and_split hpy).1, rfl, roundRating_default⟩
  · intro rid rev h
    unfold reviewFindOneAndDelete
    simp only [h]
  · intro rid rev upd h
    unfold reviewFindOneAndUpdate
    simp only [h]

/-- C1 counterexample: three reviews rated 1, 1 and 2 have arithmetic mean 4/3,
but the tour ends up storing 13/10, the mean rounded to one decimal by the
ratingsAverage setter, so the stored average is not the arithmetic mean. -/
theorem calcAverageRatings_counterexample :
    (calcAverageRatings demoDB 1).tours =
      [{ demoTour with ratingsQuantity := 3, ratingsAverage := 13/10 }] ∧
    ((demoDB.reviews.filter (fun r => r.tour == 1)).map (fun r => r.rating)).sum /
      (((demoDB.reviews.filter (fun r => r.tour == 1)).length : ℚ)) = 4/3 ∧
    decide ((13/10 : ℚ) = 4/3) = false := by
  refine ⟨?_, ?_, ?_⟩
  · unfold calcAverageRatings tourUpdateRatings
    norm_num [demoDB, demoTour, updateFirst, tourVisible, roundRating]
  · norm_num [demoDB]
  · rw [decide_eq_false_iff_not]
    norm_num

/-- Witness for C1 at the concrete database: review list untouched and the
delete trigger fires calcAverageRatings on the stored document s tour. -/
theorem calcAverageRatings_spec_witness :
    (calcAverageRatings demoDB 1).reviews = demoDB.reviews ∧
    reviewFindOneAndDelete demoDB 1 =
      .ok (calcAverageRatings
        { demoDB with reviews := removeFirst (fun r => r.id == 1) demoDB.reviews } 1) := by
  have h := calcAverageRatings_spec demoDB 1 demoTour rfl
  exact ⟨h.1, h.2.2.2.2.1 1 ⟨1, "bad", 1, 10, 1⟩ rfl⟩

/-- Witness for C5 at concrete inputs: a plain user is rejected by an
admin-only restriction and passed through by one listing their role. -/
theorem restrictTo_spec_witness :
    restrictTo ["admin"] demoUser =
      .nextError 403 "You do not have permission to perform this action" ∧
    restrictTo ["admin", "user"] demoUser = .nextOk demoUser :=
  ⟨(restrictTo_spec ["admin"] demoUser).1.mpr rfl,
   (restrictTo_spec ["admin", "user"] demoUser).2.mpr rfl⟩

/-- Witness for C7 at concrete inputs: a strict discount passes the validator
and a duplicate (tour, user) review insert is rejected. -/
theorem custom_invariants_spec_witness :
    priceDiscountValidator 50 100 = true ∧
    reviewCreate demoDB ⟨9, "dup", 3, 10, 1⟩ = .error "E11000 duplicate key" :=
  ⟨(custom_invariants_spec 50 100 demoDB ⟨9, "dup", 3, 10, 1⟩ 0).1.mpr (by norm_num),
   (custom_invariants_spec 50 100 demoDB ⟨9, "dup", 3, 10, 1⟩ 0).2.2.2.mpr
     ⟨⟨1, "bad", 1, 10, 1⟩, by simp [demoDB], rfl, rfl⟩⟩

/-- Witness for C10 at concrete inputs: the 200 response is produced for a
well-formed and for a malformed latlng alike. -/
theorem getToursWithin_spec_witness :
    (getToursWithin (fun _ _ _ _ => true) [demoTour] 400 "34.1,-118.0" "mi").status = 200 ∧
    (getToursWithin (fun _ _ _ _ => true) [demoTour] 400 "34.1" "mi").status = 200 :=
  ⟨(getToursWithin_spec (fun _ _ _ _ => true) [demoTour] 400 "34.1,-118.0" "mi").2.2.1,
   (getToursWithin_spec (fun _ _ _ _ => true) [demoTour] 400 "34.1" "mi").2.2.1⟩

end Getaways
